import Mathlib

/-!
Verification of the persisted-state model of the Academic Submission App.

The app stores four values through a key-value persistence API
(AsyncStorage): a user record, a favorites list, a settings record and a
login flag.  Every stored value is a JSON-serialized string.  We embed the
storage module (src/utils/storage.js), the relevant parts of the app
context (src/context/AppContext.js), the settings-screen logout handler
(SettingsScreen.js) and the static content provider (src/utils/api.js).

Modelling conventions:
* A JSON-backed storage cell is `Cell A`: `absent` (key missing, getItem
  returns null), `corrupt` (a stored string on which JSON.parse throws, or
  the empty string, which the code treats through its falsy check), or
  `val a` (a string that parses back to the value written; for the plain
  records involved, JSON.stringify followed by JSON.parse is the
  identity).  The login flag is stored as a raw string, not JSON, so it is
  a plain `Option String`.
* Persistence faults are injected through an `Env` of booleans, one per
  (key, direction): `failGetUser = true` means `AsyncStorage.getItem` on
  the user key throws, and so on.  A JavaScript catch block receives an
  opaque `error.message`; we model every caught storage error message by
  the constant `storageErrorMsg`, since no claim inspects its text.
* Async functions that mutate storage become state-passing functions
  `Env -> Store -> args -> Result x Store`; read-only ones return their
  value directly.
-/

namespace AcademicApp

/-- User record persisted under the user-data key: username, email and
plaintext password. -/
structure User where
  username : String
  email : String
  password : String
deriving Repr, DecidableEq

/-- Post record: id, userId, title and body, as in the static sample list
and in the persisted favorites array. -/
structure Post where
  id : Int
  userId : Int
  title : String
  body : String
deriving Repr, DecidableEq

/-- Settings record persisted under the settings key. -/
structure Settings where
  darkMode : Bool
  notifications : Bool
deriving Repr, DecidableEq

/-- A JSON-backed storage cell: the key is absent, holds a string that
fails to deserialize, or holds the serialization of a value. -/
inductive Cell (A : Type) where
  | absent : Cell A
  | corrupt : Cell A
  | val : A → Cell A
deriving Repr, DecidableEq

/-- The whole AsyncStorage state of the app: the four fixed keys of
storage.js (KEYS.USER, KEYS.FAVORITES, KEYS.SETTINGS, KEYS.IS_LOGGED_IN).
The login flag is written as a raw string, so it is kept unparsed. -/
structure Store where
  user : Cell User
  favorites : Cell (List Post)
  settings : Cell Settings
  loginFlag : Option String
deriving Repr, DecidableEq

/-- Fault environment: which primitive getItem/setItem calls throw. -/
structure Env where
  failGetUser : Bool
  failSetUser : Bool
  failGetFavorites : Bool
  failSetFavorites : Bool
  failGetSettings : Bool
  failSetSettings : Bool
  failGetFlag : Bool
  failSetFlag : Bool
deriving Repr, DecidableEq

/-- Result shape of the mutating storage operations:
success true with no error, or success false with an error message. -/
structure OpResult where
  success : Bool
  error : Option String
deriving Repr, DecidableEq

/-- Result shape of validateUser: success plus the user on success, or an
error message on failure. -/
structure ValidateResult where
  success : Bool
  user : Option User
  error : Option String
deriving Repr, DecidableEq

/-- Stand-in for the opaque message of a caught storage exception. -/
def storageErrorMsg : String := "storage error"

/-- The error text of validateUser, from storage.js line 57. -/
def invalidCredentialsMsg : String := "Invalid email or password"

/-- The raw string written to the login-flag key on signup. -/
def flagTrue : String := "true"

/-- The raw string written to the login-flag key by logoutUser. -/
def flagFalse : String := "false"

/-- Embeds saveUserData (storage.js lines 21-30): setItem the JSON of the
user record, then setItem the string true under the login-flag key; both
awaits sit under one try, so the first failure aborts and is reported, and
a flag-write failure leaves the user record already written. -/
def saveUserData (env : Env) (st : Store) (userData : User) : OpResult × Store :=
  if env.failSetUser then
    (⟨false, some storageErrorMsg⟩, st)
  else
    let st1 : Store := { st with user := Cell.val userData }
    if env.failSetFlag then
      (⟨false, some storageErrorMsg⟩, st1)
    else
      (⟨true, none⟩, { st1 with loginFlag := some flagTrue })

/-- Embeds getUserData (storage.js lines 36-43): getItem on the user key,
JSON.parse when a string is there, null when absent; any throw (getItem
failure or parse failure) is caught and null is returned. -/
def getUserData (env : Env) (st : Store) : Option User :=
  if env.failGetUser then
    none
  else
    match st.user with
    | Cell.val u => some u
    | Cell.absent => none
    | Cell.corrupt => none

/-- Embeds validateUser (storage.js lines 52-63): load the stored record
through getUserData; succeed with the record when both email and password
match by exact string equality, otherwise fail with the
invalid-credentials message.  getUserData catches internally, so the outer
catch of validateUser is unreachable in this model. -/
def validateUser (env : Env) (st : Store) (email : String) (password : String) :
    ValidateResult :=
  match getUserData env st with
  | some userData =>
      if userData.email = email ∧ userData.password = password then
        ⟨true, some userData, none⟩
      else
        ⟨false, none, some invalidCredentialsMsg⟩
  | none => ⟨false, none, some invalidCredentialsMsg⟩

/-- Embeds checkLoginStatus (storage.js lines 69-77): getItem on the
login-flag key and strict comparison with the string true; false on a
caught getItem failure. -/
def checkLoginStatus (env : Env) (st : Store) : Bool :=
  if env.failGetFlag then
    false
  else
    st.loginFlag == some flagTrue

/-- Embeds logoutUser (storage.js lines 82-90): setItem the string false
under the login-flag key; the user record is not touched. -/
def logoutUser (env : Env) (st : Store) : OpResult × Store :=
  if env.failSetFlag then
    (⟨false, some storageErrorMsg⟩, st)
  else
    (⟨true, none⟩, { st with loginFlag := some flagFalse })

/-- Embeds saveFavorites (storage.js lines 96-104): setItem the JSON of
the array; a setItem failure is caught and reported as success false with
the store unchanged. -/
def saveFavorites (env : Env) (st : Store) (favorites : List Post) : OpResult × Store :=
  if env.failSetFavorites then
    (⟨false, some storageErrorMsg⟩, st)
  else
    (⟨true, none⟩, { st with favorites := Cell.val favorites })

/-- Embeds getFavorites (storage.js lines 110-118): getItem on the
favorites key, JSON.parse when a truthy string is there, empty array
otherwise; any throw is caught and the empty array is returned. -/
def getFavorites (env : Env) (st : Store) : List Post :=
  if env.failGetFavorites then
    []
  else
    match st.favorites with
    | Cell.val l => l
    | Cell.absent => []
    | Cell.corrupt => []

/-- Embeds addToFavorites (storage.js lines 124-138): read the list with
getFavorites, linear-scan for an entry with the same id, push and
saveFavorites only when none is found, and return success true.  Both
helpers catch their own storage errors, so the outer catch is unreachable
and the result of saveFavorites is ignored. -/
def addToFavorites (env : Env) (st : Store) (post : Post) : OpResult × Store :=
  let favorites := getFavorites env st
  match favorites.find? (fun item => item.id == post.id) with
  | none =>
      let saved := saveFavorites env st (favorites ++ [post])
      (⟨true, none⟩, saved.2)
  | some _ => (⟨true, none⟩, st)

/-- Embeds removeFromFavorites (storage.js lines 144-154): read the list,
filter out entries whose id equals postId, saveFavorites the filtered
list, and return success true; the result of saveFavorites is ignored. -/
def removeFromFavorites (env : Env) (st : Store) (postId : Int) : OpResult × Store :=
  let favorites := getFavorites env st
  let filtered := favorites.filter (fun item => item.id != postId)
  let saved := saveFavorites env st filtered
  (⟨true, none⟩, saved.2)

/-- Embeds isInFavorites (storage.js lines 161-169): read the list with
getFavorites and linear-scan for the id; getFavorites catches internally,
so the outer catch is unreachable. -/
def isInFavorites (env : Env) (st : Store) (postId : Int) : Bool :=
  (getFavorites env st).any (fun item => item.id == postId)

/-- Embeds saveSettings (storage.js lines 175-183): setItem the JSON of
the settings record. -/
def saveSettings (env : Env) (st : Store) (settings : Settings) : OpResult × Store :=
  if env.failSetSettings then
    (⟨false, some storageErrorMsg⟩, st)
  else
    (⟨true, none⟩, { st with settings := Cell.val settings })

/-- Embeds getSettings (storage.js lines 189-197): getItem on the settings
key, JSON.parse when a truthy string is there, the default record
otherwise; any throw is caught and the default record is returned. -/
def getSettings (env : Env) (st : Store) : Settings :=
  if env.failGetSettings then
    ⟨false, true⟩
  else
    match st.settings with
    | Cell.val s => s
    | Cell.absent => ⟨false, true⟩
    | Cell.corrupt => ⟨false, true⟩

/-- In-memory state held by the app context (src/context/AppContext.js):
darkMode, notificationsEnabled, isLoggedIn and the user object. -/
structure AppState where
  darkMode : Bool
  notificationsEnabled : Bool
  isLoggedIn : Bool
  user : Option User
deriving Repr, DecidableEq

/-- Embeds toggleDarkMode (AppContext.js lines 64-68): negate the current
darkMode, update the in-memory state, then saveSettings the record with
the new darkMode and the unchanged notificationsEnabled; the result of
saveSettings is ignored and the in-memory update happens regardless. -/
def toggleDarkMode (env : Env) (s : AppState) (st : Store) : AppState × Store :=
  let newValue := !s.darkMode
  let s1 : AppState := { s with darkMode := newValue }
  let saved := saveSettings env st ⟨newValue, s.notificationsEnabled⟩
  (s1, saved.2)

/-- Embeds toggleNotifications (AppContext.js lines 73-77): the symmetric
toggle for the notifications flag. -/
def toggleNotifications (env : Env) (s : AppState) (st : Store) : AppState × Store :=
  let newValue := !s.notificationsEnabled
  let s1 : AppState := { s with notificationsEnabled := newValue }
  let saved := saveSettings env st ⟨s.darkMode, newValue⟩
  (s1, saved.2)

/-- Embeds clearUserData (AppContext.js lines 90-93): set the in-memory
user to null and isLoggedIn to false.  It performs no storage call. -/
def clearUserData (s : AppState) : AppState :=
  { s with user := none, isLoggedIn := false }

/-- Embeds the confirmed-logout path of handleLogout in SettingsScreen
(src/unnamed/part_003 lines 104-123): the destructive Logout button awaits
clearUserData and resets navigation to the Login route.  No storage
operation is performed, so the store is returned unchanged. -/
def handleLogout (s : AppState) (st : Store) : AppState × Store :=
  (clearUserData s, st)

/-- Result shape of fetchPosts (api.js): success with the data array, or
failure with an error message. -/
structure ApiResult where
  success : Bool
  data : Option (List Post)
  error : Option String
deriving Repr, DecidableEq

/-- The constant sample list of api.js lines 12-133: twenty post records
with hard-coded ids, user ids, titles and bodies. -/
def samplePosts : List Post :=
  [ ⟨1, 1, "Introduction to Machine Learning",
      "Machine learning is a subset of artificial intelligence that enables systems to learn and improve from experience without being explicitly programmed. It focuses on developing algorithms that can access data and use it to learn for themselves."⟩,
    ⟨2, 2, "The Future of Renewable Energy",
      "Renewable energy sources like solar, wind, and hydroelectric power are becoming increasingly important as we seek to reduce our carbon footprint and combat climate change. The transition to clean energy is essential for a sustainable future."⟩,
    ⟨3, 3, "Understanding Blockchain Technology",
      "Blockchain is a distributed ledger technology that records transactions across many computers. Its key features include decentralization, transparency, and security. It has applications beyond cryptocurrency in supply chain, voting, and more."⟩,
    ⟨4, 4, "The Rise of Electric Vehicles",
      "Electric vehicles are revolutionizing the automotive industry with their environmental benefits and advancing technology. Major automakers are investing heavily in EV development, making electric cars more accessible to consumers worldwide."⟩,
    ⟨5, 5, "Web Development Best Practices",
      "Modern web development requires understanding of HTML, CSS, JavaScript, and various frameworks. Following best practices like responsive design, accessibility, and performance optimization creates better user experiences."⟩,
    ⟨6, 6, "Cybersecurity in the Digital Age",
      "With increasing digitalization, cybersecurity has become crucial for individuals and organizations. Understanding common threats like phishing, malware, and ransomware helps in implementing effective protection measures."⟩,
    ⟨7, 1, "Cloud Computing Fundamentals",
      "Cloud computing provides on-demand computing resources over the internet. Services like storage, processing power, and applications are delivered through cloud platforms, enabling scalable and cost-effective solutions."⟩,
    ⟨8, 2, "Data Science and Analytics",
      "Data science involves extracting insights from data using various techniques including statistics, machine learning, and programming. It helps organizations make data-driven decisions and solve complex problems."⟩,
    ⟨9, 3, "Mobile App Development Trends",
      "Mobile app development continues to evolve with new technologies and user expectations. Key trends include cross-platform development, AI integration, and focus on user experience and security."⟩,
    ⟨10, 4, "Artificial Intelligence in Healthcare",
      "AI is transforming healthcare through improved diagnostics, personalized treatment plans, and drug discovery. Machine learning algorithms can analyze medical images, predict patient outcomes, and streamline administrative tasks."⟩,
    ⟨11, 5, "The Internet of Things Explained",
      "IoT connects everyday devices to the internet, enabling smart homes, cities, and industries. Sensors and actuators collect and exchange data, creating interconnected systems that improve efficiency and convenience."⟩,
    ⟨12, 6, "Quantum Computing: A New Era",
      "Quantum computing harnesses quantum mechanics to perform computations exponentially faster than classical computers. It has potential applications in cryptography, drug discovery, and solving complex optimization problems."⟩,
    ⟨13, 1, "Software Engineering Principles",
      "Good software engineering involves writing maintainable, scalable, and efficient code. Key principles include SOLID design patterns, test-driven development, and continuous integration and deployment."⟩,
    ⟨14, 2, "Network Security Essentials",
      "Network security protects underlying IT infrastructure from unauthorized access. Essential measures include firewalls, intrusion detection systems, encryption, and regular security audits to identify vulnerabilities."⟩,
    ⟨15, 3, "The Evolution of Social Media",
      "Social media has transformed how we communicate and share information. Platforms continue to evolve with new features, algorithms, and privacy concerns shaping user behavior and digital marketing strategies."⟩,
    ⟨16, 4, "Database Management Systems",
      "Database management systems store, organize, and retrieve data efficiently. Understanding SQL, NoSQL, and database design principles is essential for building robust applications."⟩,
    ⟨17, 5, "DevOps and Agile Methodologies",
      "DevOps combines development and operations to deliver software faster and more reliably. Agile methodologies promote iterative development, collaboration, and adaptability in project management."⟩,
    ⟨18, 6, "Computer Networks Basics",
      "Computer networks enable devices to communicate and share resources. Understanding protocols, IP addressing, routing, and network topologies is fundamental to IT infrastructure."⟩,
    ⟨19, 1, "User Experience Design",
      "UX design focuses on creating products that provide meaningful experiences to users. It involves user research, prototyping, usability testing, and continuous improvement based on user feedback."⟩,
    ⟨20, 2, "Operating Systems Fundamentals",
      "Operating systems manage hardware resources and provide services to applications. Understanding process management, memory allocation, file systems, and security is crucial for system development."⟩ ]

/-- Embeds fetchPosts (api.js lines 139-147): it performs no network call
and returns success with the constant sample list; its catch block is
unreachable. -/
def fetchPosts : ApiResult :=
  ⟨true, some samplePosts, none⟩

/-- A favorites-manager operation, as triggered from the UI: add a post or
remove a post id. -/
inductive FavOp where
  | add (post : Post)
  | remove (postId : Int)
deriving Repr, DecidableEq

/-- Apply one favorites operation to the store, keeping only the resulting
store (the UI ignores the result objects of these calls). -/
def applyFavOp (env : Env) (st : Store) : FavOp → Store
  | FavOp.add p => (addToFavorites env st p).2
  | FavOp.remove i => (removeFromFavorites env st i).2

/-- Apply a sequence of favorites operations from left to right. -/
def applyFavOps (env : Env) (st : Store) : List FavOp → Store
  | [] => st
  | op :: ops => applyFavOps env (applyFavOp env st op) ops

/-- At most one entry per id: the ids of the list are pairwise distinct. -/
def uniqueIds (l : List Post) : Prop :=
  l.Pairwise (fun a b => a.id ≠ b.id)

instance (l : List Post) : Decidable (uniqueIds l) := by
  unfold uniqueIds
  infer_instance

/-- The list a favorites cell deserializes to: the stored list when it
parses, the empty list when the key is absent or corrupt (matching what
getFavorites yields without a read fault). -/
def cellList : Cell (List Post) → List Post
  | Cell.val l => l
  | Cell.absent => []
  | Cell.corrupt => []

/-- The uniqueness invariant on the stored favorites cell. -/
def cellUniq (c : Cell (List Post)) : Prop :=
  uniqueIds (cellList c)

instance (c : Cell (List Post)) : Decidable (cellUniq c) := by
  unfold cellUniq
  infer_instance

/-! Concrete fixtures used by witnesses and counterexamples. -/

/-- Fault-free environment: every storage primitive succeeds. -/
def envOk : Env := ⟨false, false, false, false, false, false, false, false⟩

/-- Environment in which only setItem on the favorites key throws. -/
def envFavWriteFail : Env := { envOk with failSetFavorites := true }

/-- Environment in which setItem on the login-flag key throws. -/
def envFlagWriteFail : Env := { envOk with failSetFlag := true }

/-- A sample signed-up user. -/
def userAlice : User := ⟨"alice", "alice@example.com", "pw123"⟩

/-- A small sample post. -/
def post1 : Post := ⟨1, 1, "t1", "b1"⟩

/-- A second sample post with a distinct id. -/
def post2 : Post := ⟨2, 1, "t2", "b2"⟩

/-- The fresh-install store: every key absent. -/
def emptyStore : Store := ⟨Cell.absent, Cell.absent, Cell.absent, none⟩

/-- A store holding the signed-up user and the logged-in flag. -/
def storeAlice : Store :=
  ⟨Cell.val userAlice, Cell.absent, Cell.absent, some flagTrue⟩

/-- The in-memory app state after a successful login of the sample user. -/
def appLoggedIn : AppState := ⟨false, true, true, some userAlice⟩

/-! Claim C1. -/

/-- C1: over any store and input pair, with the user read not faulted,
validateUser succeeds exactly when a user record is stored and its email
and password both equal the input by string equality, in which case the
stored user is returned; on any mismatch, or when no record is stored (or
it fails to parse), the result is the invalid-credentials failure. -/
theorem validateUser_iff_stored_match (env : Env) (st : Store)
    (email : String) (password : String) (hg : env.failGetUser = false) :
    ((validateUser env st email password).success = true ↔
      ∃ u, st.user = Cell.val u ∧ u.email = email ∧ u.password = password)
    ∧ (∀ u, st.user = Cell.val u → u.email = email → u.password = password →
        validateUser env st email password = ⟨true, some u, none⟩)
    ∧ ((∀ u, st.user = Cell.val u → ¬(u.email = email ∧ u.password = password)) →
        validateUser env st email password = ⟨false, none, some invalidCredentialsMsg⟩) := by
  cases hu : st.user with
  | absent =>
      have hred : validateUser env st email password =
          ⟨false, none, some invalidCredentialsMsg⟩ := by
        simp [validateUser, getUserData, hg, hu]
      refine ⟨?_, ?_, fun _ => hred⟩
      · rw [hred]
        simp
      · intro u h
        exact absurd h (by simp)
  | corrupt =>
      have hred : validateUser env st email password =
          ⟨false, none, some invalidCredentialsMsg⟩ := by
        simp [validateUser, getUserData, hg, hu]
      refine ⟨?_, ?_, fun _ => hred⟩
      · rw [hred]
        simp
      · intro u h
        exact absurd h (by simp)
  | val u =>
      have hred : validateUser env st email password =
          if u.email = email ∧ u.password = password then ⟨true, some u, none⟩
          else ⟨false, none, some invalidCredentialsMsg⟩ := by
        simp [validateUser, getUserData, hg, hu]
      rw [hred]
      by_cases hm : u.email = email ∧ u.password = password
      · rw [if_pos hm]
        refine ⟨⟨fun _ => ⟨u, rfl, hm.1, hm.2⟩, fun _ => rfl⟩, ?_, ?_⟩
        · intro u2 h2 _ _
          obtain rfl : u = u2 := by injection h2
          rfl
        · intro hnone
          exact absurd hm (hnone u rfl)
      · rw [if_neg hm]
        refine ⟨⟨?_, ?_⟩, ?_, fun _ => rfl⟩
        · intro h
          exact absurd h (by simp)
        · rintro ⟨u2, h2, he, hp⟩
          obtain rfl : u = u2 := by injection h2
          exact absurd ⟨he, hp⟩ hm
        · intro u2 h2 he hp
          obtain rfl : u = u2 := by injection h2
          exact absurd ⟨he, hp⟩ hm

/-- C1 witness: at the fault-free environment, the store holding the
sample user, and the matching credentials, validateUser returns the
success result carrying that user. -/
theorem validateUser_iff_stored_match_witness :
    validateUser envOk storeAlice "alice@example.com" "pw123" =
      ⟨true, some userAlice, none⟩ :=
  (validateUser_iff_stored_match envOk storeAlice "alice@example.com" "pw123"
    rfl).2.1 userAlice rfl rfl rfl

/-! Helper lemmas about the favorites manager. -/

/-- The empty list trivially has pairwise-distinct ids. -/
theorem uniqueIds_nil : uniqueIds [] :=
  List.Pairwise.nil

/-- Without a read fault, getFavorites yields exactly the list the stored
cell deserializes to. -/
theorem getFavorites_eq_cellList (env : Env) (st : Store)
    (hg : env.failGetFavorites = false) :
    getFavorites env st = cellList st.favorites := by
  unfold getFavorites cellList
  simp only [hg, Bool.false_eq_true, if_false]

/-- The list getFavorites yields always satisfies the uniqueness invariant
when the stored cell does, whatever the fault environment. -/
theorem uniq_getFavorites (env : Env) (st : Store) (h : cellUniq st.favorites) :
    uniqueIds (getFavorites env st) := by
  by_cases hg : env.failGetFavorites = true
  · unfold getFavorites
    simp only [hg, if_true]
    exact uniqueIds_nil
  · rw [Bool.not_eq_true] at hg
    rw [getFavorites_eq_cellList env st hg]
    exact h

/-- When the linear scan finds an entry with the same id, addToFavorites
returns success and leaves the store untouched. -/
theorem addToFavorites_of_found (env : Env) (st : Store) (post : Post) (x : Post)
    (hf : (getFavorites env st).find? (fun item => item.id == post.id) = some x) :
    addToFavorites env st post = (⟨true, none⟩, st) := by
  unfold addToFavorites
  simp only [hf]

/-- When the linear scan finds no entry with the same id and the write
succeeds, addToFavorites appends the post to the list it read. -/
theorem addToFavorites_of_not_found (env : Env) (st : Store) (post : Post)
    (hs : env.failSetFavorites = false)
    (hf : (getFavorites env st).find? (fun item => item.id == post.id) = none) :
    addToFavorites env st post =
      (⟨true, none⟩,
        { st with favorites := Cell.val (getFavorites env st ++ [post]) }) := by
  unfold addToFavorites saveFavorites
  simp only [hf, hs, Bool.false_eq_true, if_false]

/-- addToFavorites preserves the uniqueness invariant of the stored
favorites cell, in every fault environment. -/
theorem addToFavorites_preserves_uniq (env : Env) (st : Store) (post : Post)
    (h : cellUniq st.favorites) :
    cellUniq (addToFavorites env st post).2.favorites := by
  cases hf : (getFavorites env st).find? (fun item => item.id == post.id) with
  | some x =>
      rw [addToFavorites_of_found env st post x hf]
      exact h
  | none =>
      by_cases hs : env.failSetFavorites = true
      · have hr : addToFavorites env st post = (⟨true, none⟩, st) := by
          unfold addToFavorites saveFavorites
          simp only [hf, hs, if_true]
        rw [hr]
        exact h
      · rw [Bool.not_eq_true] at hs
        rw [addToFavorites_of_not_found env st post hs hf]
        show uniqueIds (getFavorites env st ++ [post])
        have hu := uniq_getFavorites env st h
        have hnot : ∀ x ∈ getFavorites env st, x.id ≠ post.id := by
          intro x hx
          have hfx := List.find?_eq_none.mp hf x hx
          simpa using hfx
        unfold uniqueIds
        rw [List.pairwise_append]
        refine ⟨hu, by simp, ?_⟩
        intro a ha b hb
        rw [List.mem_singleton] at hb
        subst hb
        exact hnot a ha

/-- removeFromFavorites preserves the uniqueness invariant of the stored
favorites cell, in every fault environment. -/
theorem removeFromFavorites_preserves_uniq (env : Env) (st : Store) (postId : Int)
    (h : cellUniq st.favorites) :
    cellUniq (removeFromFavorites env st postId).2.favorites := by
  by_cases hs : env.failSetFavorites = true
  · have hr : (removeFromFavorites env st postId).2 = st := by
      unfold removeFromFavorites saveFavorites
      simp only [hs, if_true]
    rw [hr]
    exact h
  · rw [Bool.not_eq_true] at hs
    have hr : (removeFromFavorites env st postId).2 =
        { st with favorites :=
            Cell.val ((getFavorites env st).filter (fun item => item.id != postId)) } := by
      unfold removeFromFavorites saveFavorites
      simp only [hs, Bool.false_eq_true, if_false]
    rw [hr]
    show uniqueIds ((getFavorites env st).filter (fun item => item.id != postId))
    exact List.Pairwise.sublist (List.filter_sublist _) (uniq_getFavorites env st h)

/-- One favorites operation preserves the uniqueness invariant. -/
theorem applyFavOp_preserves_uniq (env : Env) (st : Store) (op : FavOp)
    (h : cellUniq st.favorites) :
    cellUniq (applyFavOp env st op).favorites := by
  cases op with
  | add p => exact addToFavorites_preserves_uniq env st p h
  | remove i => exact removeFromFavorites_preserves_uniq env st i h

/-- Any sequence of favorites operations preserves the uniqueness
invariant. -/
theorem applyFavOps_preserves_uniq (env : Env) (ops : List FavOp) :
    ∀ st : Store, cellUniq st.favorites →
      cellUniq (applyFavOps env st ops).favorites := by
  induction ops with
  | nil =>
      intro st h
      exact h
  | cons op ops ih =>
      intro st h
      exact ih _ (applyFavOp_preserves_uniq env st op h)

/-- In a list with pairwise-distinct ids that contains an entry with id i,
the number of entries with id i is exactly one. -/
theorem countP_id_eq_one_of_uniq (i : Int) :
    ∀ l : List Post, uniqueIds l → ∀ x ∈ l, x.id = i →
      l.countP (fun q => q.id == i) = 1 := by
  intro l
  induction l with
  | nil =>
      intro _ x hx
      exact absurd hx (List.not_mem_nil x)
  | cons a t ih =>
      intro hu x hx hid
      have ha : ∀ b ∈ t, a.id ≠ b.id := (List.pairwise_cons.mp hu).1
      have ht : uniqueIds t := (List.pairwise_cons.mp hu).2
      rcases List.mem_cons.mp hx with rfl | hxt
      · have hpa : (x.id == i) = true := by simp [hid]
        rw [List.countP_cons_of_pos (fun q => q.id == i) t hpa]
        have ht0 : t.countP (fun q => q.id == i) = 0 := by
          rw [List.countP_eq_zero]
          intro b hb heq
          have hbi : b.id = i := by simpa using heq
          exact ha b hb (hid.trans hbi.symm)
        rw [ht0]
      · have hane : a.id ≠ i := fun h => ha x hxt (h.trans hid.symm)
        have hpa : ¬((a.id == i) = true) := by simp [hane]
        rw [List.countP_cons_of_neg (fun q => q.id == i) t hpa]
        exact ih ht x hxt hid

/-! Claim C2. -/

/-- C2: over any store whose favorites cell has at most one entry per id
and any post, with the favorites reads and writes not faulted,
addToFavorites leaves the store untouched when an entry with the same id
is already stored and appends the post otherwise; any sequence of add and
remove operations keeps the at-most-one-entry-per-id invariant; and adding
the same post twice leaves exactly one stored entry with its id. -/
theorem favorites_at_most_one_per_id (env : Env) (st : Store) (post : Post)
    (ops : List FavOp)
    (hg : env.failGetFavorites = false) (hs : env.failSetFavorites = false)
    (hinv : cellUniq st.favorites) :
    (∀ l, st.favorites = Cell.val l →
      (l.any (fun item => item.id == post.id) = true →
        (addToFavorites env st post).2 = st)
      ∧ (l.any (fun item => item.id == post.id) = false →
        (addToFavorites env st post).2.favorites = Cell.val (l ++ [post])))
    ∧ cellUniq (applyFavOps env st ops).favorites
    ∧ (cellList (addToFavorites env (addToFavorites env st post).2 post).2.favorites).countP
        (fun q => q.id == post.id) = 1 := by
  have hgf : getFavorites env st = cellList st.favorites :=
    getFavorites_eq_cellList env st hg
  refine ⟨?_, applyFavOps_preserves_uniq env ops st hinv, ?_⟩
  · intro l hl
    have hgl : getFavorites env st = l := by
      rw [hgf, hl]
      rfl
    constructor
    · intro hany
      cases hf : (getFavorites env st).find? (fun item => item.id == post.id) with
      | some x =>
          rw [addToFavorites_of_found env st post x hf]
      | none =>
          exfalso
          obtain ⟨x, hx, hpx⟩ := List.any_eq_true.mp hany
          have hnone := List.find?_eq_none.mp hf x (by rw [hgl]; exact hx)
          exact hnone hpx
    · intro hany
      have hf : (getFavorites env st).find? (fun item => item.id == post.id) = none := by
        rw [List.find?_eq_none]
        intro x hx
        rw [hgl] at hx
        intro hpx
        have : l.any (fun item => item.id == post.id) = true :=
          List.any_eq_true.mpr ⟨x, hx, hpx⟩
        rw [hany] at this
        exact Bool.false_ne_true this
      rw [addToFavorites_of_not_found env st post hs hf]
      show Cell.val (getFavorites env st ++ [post]) = Cell.val (l ++ [post])
      rw [hgl]
  · cases hf : (getFavorites env st).find? (fun item => item.id == post.id) with
    | some x =>
        have h1 : addToFavorites env st post = (⟨true, none⟩, st) :=
          addToFavorites_of_found env st post x hf
        simp only [h1]
        have hpx := List.find?_some hf
        have hmem : x ∈ getFavorites env st := List.mem_of_find?_eq_some hf
        rw [hgf] at hmem
        exact countP_id_eq_one_of_uniq post.id (cellList st.favorites) hinv x hmem
          (by simpa using hpx)
    | none =>
        have h1 := addToFavorites_of_not_found env st post hs hf
        simp only [h1]
        have hall : ∀ x ∈ getFavorites env st, ¬((x.id == post.id) = true) :=
          List.find?_eq_none.mp hf
        have hgf1 : getFavorites env
            { st with favorites := Cell.val (getFavorites env st ++ [post]) } =
            getFavorites env st ++ [post] := by
          rw [getFavorites_eq_cellList env _ hg]
          rfl
        cases hf2 : (getFavorites env
            { st with favorites := Cell.val (getFavorites env st ++ [post]) }).find?
            (fun item => item.id == post.id) with
        | none =>
            exfalso
            have hmem : post ∈ getFavorites env
                { st with favorites := Cell.val (getFavorites env st ++ [post]) } := by
              rw [hgf1]
              exact List.mem_append_right _ (List.mem_singleton.mpr rfl)
            have hnone := List.find?_eq_none.mp hf2 post hmem
            exact hnone (by simp)
        | some y =>
            rw [addToFavorites_of_found env _ post y hf2]
            show ((getFavorites env st ++ [post]).countP (fun q => q.id == post.id)) = 1
            rw [List.countP_append]
            have h0 : (getFavorites env st).countP (fun q => q.id == post.id) = 0 :=
              List.countP_eq_zero.mpr hall
            rw [h0]
            simp

/-- C2 witness: from the fresh store, adding the sample post twice through
the fault-free environment leaves exactly one stored entry with its id. -/
theorem favorites_at_most_one_per_id_witness :
    (cellList (addToFavorites envOk
        (addToFavorites envOk emptyStore post1).2 post1).2.favorites).countP
      (fun q => q.id == post1.id) = 1 :=
  (favorites_at_most_one_per_id envOk emptyStore post1 [] rfl rfl (by decide)).2.2

/-! Claim C3. -/

/-- C3 counterexample: with setItem on the favorites key throwing,
addToFavorites of the sample post on the fresh store reports success even
though the underlying saveFavorites write failed and nothing was stored. -/
theorem add_reports_success_despite_write_failure :
    envFavWriteFail.failSetFavorites = true
    ∧ (saveFavorites envFavWriteFail emptyStore [post1]).1.success = false
    ∧ (addToFavorites envFavWriteFail emptyStore post1).1.success = true
    ∧ (addToFavorites envFavWriteFail emptyStore post1).2 = emptyStore :=
  ⟨rfl, rfl, rfl, rfl⟩

/-- C3 amended: persistence errors in the favorites operations are caught
inside the storage helpers, not surfaced by add and remove: saveFavorites
reports its write failure as a failure result and leaves the store
unchanged, but addToFavorites and removeFromFavorites ignore that result
and return success unconditionally, in every fault environment. -/
theorem fav_ops_swallow_persistence_errors (env : Env) (st : Store)
    (post : Post) (postId : Int) (l : List Post) :
    (addToFavorites env st post).1 = ⟨true, none⟩
    ∧ (removeFromFavorites env st postId).1 = ⟨true, none⟩
    ∧ (env.failSetFavorites = true →
        (saveFavorites env st l).1 = ⟨false, some storageErrorMsg⟩
        ∧ (saveFavorites env st l).2 = st) := by
  refine ⟨?_, rfl, ?_⟩
  · cases hf : (getFavorites env st).find? (fun item => item.id == post.id) with
    | some x =>
        rw [addToFavorites_of_found env st post x hf]
    | none =>
        by_cases hs : env.failSetFavorites = true
        · have hr : addToFavorites env st post = (⟨true, none⟩, st) := by
            unfold addToFavorites saveFavorites
            simp only [hf, hs, if_true]
          rw [hr]
        · rw [Bool.not_eq_true] at hs
          rw [addToFavorites_of_not_found env st post hs hf]
  · intro hsf
    have hr : saveFavorites env st l = (⟨false, some storageErrorMsg⟩, st) := by
      unfold saveFavorites
      simp only [hsf, if_true]
    rw [hr]
    exact ⟨rfl, rfl⟩

/-- C3 amended witness: at the favorites-write-failing environment, the
fresh store and the sample post, the write failure is reported by
saveFavorites while addToFavorites still returns plain success. -/
theorem fav_ops_swallow_persistence_errors_witness :
    (addToFavorites envFavWriteFail emptyStore post1).1 = ⟨true, none⟩
    ∧ (saveFavorites envFavWriteFail emptyStore [post1]).1 =
        ⟨false, some storageErrorMsg⟩ :=
  ⟨(fav_ops_swallow_persistence_errors envFavWriteFail emptyStore post1 1 [post1]).1,
   ((fav_ops_swallow_persistence_errors envFavWriteFail emptyStore post1 1 [post1]).2.2
      rfl).1⟩

/-! Claim C4. -/

/-- C4 counterexample: with the sample user stored, the settings-screen
logout leaves the stored user record in place, and the subsequent
getUserData returns the stored user, not null. -/
theorem logout_leaves_user_record :
    (handleLogout appLoggedIn storeAlice).2.user = Cell.val userAlice
    ∧ getUserData envOk (handleLogout appLoggedIn storeAlice).2 = some userAlice
    ∧ getUserData envOk (handleLogout appLoggedIn storeAlice).2 ≠ none := by
  refine ⟨rfl, rfl, by decide⟩

/-- C4 amended: the settings-screen logout only clears the in-memory user
and login state; the store, in particular the stored user record, is
unchanged, so a subsequent getUserData returns exactly what it returned
before; and logoutUser, the storage-level logout, persists only the false
login flag and also leaves the user record in place. -/
theorem handleLogout_clears_memory_not_storage (env : Env) (s : AppState)
    (st : Store) (hf : env.failSetFlag = false) :
    (handleLogout s st).2 = st
    ∧ (handleLogout s st).1.user = none
    ∧ (handleLogout s st).1.isLoggedIn = false
    ∧ getUserData env (handleLogout s st).2 = getUserData env st
    ∧ (logoutUser env st).2.user = st.user
    ∧ (logoutUser env st).2.loginFlag = some flagFalse := by
  refine ⟨rfl, rfl, rfl, rfl, ?_, ?_⟩
  · unfold logoutUser
    simp only [hf, Bool.false_eq_true, if_false]
  · unfold logoutUser
    simp only [hf, Bool.false_eq_true, if_false]

/-- C4 amended witness: at the fault-free environment, the logged-in app
state and the store holding the sample user, logout leaves the store
exactly as it was. -/
theorem handleLogout_clears_memory_not_storage_witness :
    (handleLogout appLoggedIn storeAlice).2 = storeAlice :=
  (handleLogout_clears_memory_not_storage envOk appLoggedIn storeAlice rfl).1

/-! Claim C5. -/

/-- When the write succeeds, removeFromFavorites returns success and
stores the filtered list. -/
theorem removeFromFavorites_eq (env : Env) (st : Store) (postId : Int)
    (hs : env.failSetFavorites = false) :
    removeFromFavorites env st postId =
      (⟨true, none⟩,
        { st with favorites :=
            Cell.val ((getFavorites env st).filter (fun item => item.id != postId)) }) := by
  unfold removeFromFavorites saveFavorites
  simp only [hs, Bool.false_eq_true, if_false]

/-- Filtering a list twice by the same predicate equals filtering once. -/
theorem filter_twice (p : Post → Bool) (l : List Post) :
    (l.filter p).filter p = l.filter p := by
  rw [List.filter_filter]
  simp

/-- C5: with the favorites read and write not faulted, removeFromFavorites
returns success and replaces the stored list by the previous one with
every entry of the given id filtered out; removing the same id twice gives
the same call result and store as removing it once; and when no stored
entry has the id the store is left exactly as it was, still with
success. -/
theorem removeFromFavorites_filters_and_idempotent (env : Env) (st : Store)
    (postId : Int)
    (hg : env.failGetFavorites = false) (hs : env.failSetFavorites = false) :
    (removeFromFavorites env st postId).1 = ⟨true, none⟩
    ∧ (removeFromFavorites env st postId).2.favorites =
        Cell.val ((cellList st.favorites).filter (fun item => item.id != postId))
    ∧ removeFromFavorites env (removeFromFavorites env st postId).2 postId =
        removeFromFavorites env st postId
    ∧ (∀ l, st.favorites = Cell.val l →
        l.all (fun item => item.id != postId) = true →
        (removeFromFavorites env st postId).2 = st) := by
  have h1 := removeFromFavorites_eq env st postId hs
  refine ⟨by rw [h1], ?_, ?_, ?_⟩
  · rw [h1]
    show Cell.val ((getFavorites env st).filter (fun item => item.id != postId)) = _
    rw [getFavorites_eq_cellList env st hg]
  · have hg2 : getFavorites env
        { st with favorites :=
            Cell.val ((getFavorites env st).filter (fun item => item.id != postId)) } =
        (getFavorites env st).filter (fun item => item.id != postId) := by
      rw [getFavorites_eq_cellList env _ hg]
      rfl
    have h2 := removeFromFavorites_eq env
        { st with favorites :=
            Cell.val ((getFavorites env st).filter (fun item => item.id != postId)) }
        postId hs
    rw [h1]
    show removeFromFavorites env
        { st with favorites :=
            Cell.val ((getFavorites env st).filter (fun item => item.id != postId)) }
        postId = _
    rw [h2, hg2, filter_twice]
  · intro l hl hall
    rw [h1]
    have hgl : getFavorites env st = l := by
      rw [getFavorites_eq_cellList env st hg, hl]
      rfl
    rw [hgl]
    have hfl : l.filter (fun item => item.id != postId) = l := by
      rw [List.filter_eq_self]
      exact List.all_eq_true.mp hall
    rw [hfl]
    show { st with favorites := Cell.val l } = st
    rw [← hl]

/-- C5 witness: at the fault-free environment and a store holding the two
sample posts, removing an absent id succeeds and leaves the store
unchanged. -/
theorem removeFromFavorites_filters_and_idempotent_witness :
    (removeFromFavorites envOk
        ⟨Cell.absent, Cell.val [post1, post2], Cell.absent, none⟩ 7).2 =
      ⟨Cell.absent, Cell.val [post1, post2], Cell.absent, none⟩ :=
  (removeFromFavorites_filters_and_idempotent envOk
      ⟨Cell.absent, Cell.val [post1, post2], Cell.absent, none⟩ 7 rfl rfl).2.2.2
    [post1, post2] rfl (by decide)

/-! Claim C6. -/

/-- C6: when a persisted key is absent or its stored string fails to
deserialize, the readers return the documented defaults — settings with
darkMode false and notifications true, the empty favorites list, the null
user, and logged-out — and for each JSON-backed key the corrupt cell is
indistinguishable from the absent one, in every fault environment. -/
theorem readers_default_on_absent_or_corrupt (env : Env) (st : Store) :
    (st.settings = Cell.absent ∨ st.settings = Cell.corrupt →
      getSettings env st = ⟨false, true⟩)
    ∧ (st.favorites = Cell.absent ∨ st.favorites = Cell.corrupt →
      getFavorites env st = [])
    ∧ (st.user = Cell.absent ∨ st.user = Cell.corrupt →
      getUserData env st = none)
    ∧ (st.loginFlag = none → checkLoginStatus env st = false)
    ∧ getSettings env { st with settings := Cell.corrupt } =
        getSettings env { st with settings := Cell.absent }
    ∧ getFavorites env { st with favorites := Cell.corrupt } =
        getFavorites env { st with favorites := Cell.absent }
    ∧ getUserData env { st with user := Cell.corrupt } =
        getUserData env { st with user := Cell.absent } := by
  refine ⟨?_, ?_, ?_, ?_, ?_, ?_, ?_⟩
  · intro h
    rcases h with h | h <;> cases hg : env.failGetSettings <;>
      simp [getSettings, h, hg]
  · intro h
    rcases h with h | h <;> cases hg : env.failGetFavorites <;>
      simp [getFavorites, h, hg]
  · intro h
    rcases h with h | h <;> cases hg : env.failGetUser <;>
      simp [getUserData, h, hg]
  · intro h
    cases hg : env.failGetFlag <;> simp [checkLoginStatus, h, hg]
  · cases hg : env.failGetSettings <;> simp [getSettings, hg]
  · cases hg : env.failGetFavorites <;> simp [getFavorites, hg]
  · cases hg : env.failGetUser <;> simp [getUserData, hg]

/-- C6 witness: on the fresh store with every key absent, through the
fault-free environment, all four readers return their defaults. -/
theorem readers_default_on_absent_or_corrupt_witness :
    getSettings envOk emptyStore = ⟨false, true⟩
    ∧ getFavorites envOk emptyStore = []
    ∧ getUserData envOk emptyStore = none
    ∧ checkLoginStatus envOk emptyStore = false :=
  ⟨(readers_default_on_absent_or_corrupt envOk emptyStore).1 (Or.inl rfl),
   (readers_default_on_absent_or_corrupt envOk emptyStore).2.1 (Or.inl rfl),
   (readers_default_on_absent_or_corrupt envOk emptyStore).2.2.1 (Or.inl rfl),
   (readers_default_on_absent_or_corrupt envOk emptyStore).2.2.2.1 rfl⟩

/-! Claim C7. -/

/-- C7: with the settings write not faulted, toggling dark mode persists a
settings record whose darkMode is the negation of the previous in-memory
value and whose notifications field equals the unchanged in-memory value,
and updates the in-memory state the same way; in particular toggling from
darkMode false persists darkMode true. -/
theorem toggleDarkMode_persists_negation (env : Env) (s : AppState) (st : Store)
    (hs : env.failSetSettings = false) :
    (toggleDarkMode env s st).2.settings =
      Cell.val ⟨!s.darkMode, s.notificationsEnabled⟩
    ∧ (toggleDarkMode env s st).1.darkMode = !s.darkMode
    ∧ (toggleDarkMode env s st).1.notificationsEnabled = s.notificationsEnabled
    ∧ (s.darkMode = false →
        (toggleDarkMode env s st).2.settings =
          Cell.val ⟨true, s.notificationsEnabled⟩) := by
  have hr : toggleDarkMode env s st =
      ({ s with darkMode := !s.darkMode },
        { st with settings := Cell.val ⟨!s.darkMode, s.notificationsEnabled⟩ }) := by
    unfold toggleDarkMode saveSettings
    simp only [hs, Bool.false_eq_true, if_false]
  rw [hr]
  refine ⟨rfl, rfl, rfl, ?_⟩
  intro hd
  simp [hd]

/-- C7 witness: toggling dark mode on from the state with darkMode false
and notifications true persists the record with darkMode true and
notifications true. -/
theorem toggleDarkMode_persists_negation_witness :
    (toggleDarkMode envOk ⟨false, true, false, none⟩ emptyStore).2.settings =
      Cell.val ⟨true, true⟩ :=
  (toggleDarkMode_persists_negation envOk ⟨false, true, false, none⟩ emptyStore
      rfl).2.2.2 rfl

/-! Claim C8. -/

/-- C8: fetchPosts returns the success result holding the constant sample
list, which has exactly twenty records; it is a constant, so every call
yields the same list, with no fetching, pagination, or caching. -/
theorem fetchPosts_constant_twenty :
    fetchPosts = ⟨true, some samplePosts, none⟩ ∧ samplePosts.length = 20 :=
  ⟨rfl, rfl⟩

/-! Claim C9. -/

/-- C9: whenever saveUserData reports success it has stored the user
record and written the true login flag, so checkLoginStatus (with the flag
read not faulted) subsequently returns true; and the two sequential writes
are not atomic: when only the flag write fails, the call reports failure
even though the user record was already written. -/
theorem saveUserData_success_sets_record_and_flag (env : Env) (st : Store)
    (userData : User)
    (h : (saveUserData env st userData).1.success = true)
    (hgf : env.failGetFlag = false) :
    (saveUserData env st userData).2.user = Cell.val userData
    ∧ (saveUserData env st userData).2.loginFlag = some flagTrue
    ∧ checkLoginStatus env (saveUserData env st userData).2 = true
    ∧ (∀ env2 : Env, env2.failSetUser = false → env2.failSetFlag = true →
        (saveUserData env2 st userData).1.success = false
        ∧ (saveUserData env2 st userData).2.user = Cell.val userData
        ∧ (saveUserData env2 st userData).2.loginFlag = st.loginFlag) := by
  have hsu : env.failSetUser = false := by
    by_contra hc
    rw [Bool.not_eq_false] at hc
    simp [saveUserData, hc] at h
  have hsf : env.failSetFlag = false := by
    by_contra hc
    rw [Bool.not_eq_false] at hc
    simp [saveUserData, hsu, hc] at h
  have hr : saveUserData env st userData =
      (⟨true, none⟩, { st with user := Cell.val userData, loginFlag := some flagTrue }) := by
    unfold saveUserData
    simp [hsu, hsf]
  rw [hr]
  refine ⟨rfl, rfl, ?_, ?_⟩
  · unfold checkLoginStatus
    simp [hgf]
  · intro env2 h2u h2f
    have hr2 : saveUserData env2 st userData =
        (⟨false, some storageErrorMsg⟩, { st with user := Cell.val userData }) := by
      unfold saveUserData
      simp [h2u, h2f]
    rw [hr2]
    exact ⟨rfl, rfl, rfl⟩

/-- C9 witness: signing up the sample user on the fresh store through the
fault-free environment leaves checkLoginStatus true. -/
theorem saveUserData_success_sets_record_and_flag_witness :
    checkLoginStatus envOk (saveUserData envOk emptyStore userAlice).2 = true :=
  (saveUserData_success_sets_record_and_flag envOk emptyStore userAlice rfl
      rfl).2.2.1

/-! Claim C10. -/

/-- C10: isInFavorites returns true exactly when the stored favorites
list contains an entry with the given id, when the read is not faulted;
on a faulted read, and likewise when the key is absent or its string is
corrupt, it returns false, so a storage failure is indistinguishable from
the id being absent. -/
theorem isInFavorites_iff_member (env : Env) (st : Store) (postId : Int) :
    (env.failGetFavorites = true → isInFavorites env st postId = false)
    ∧ (env.failGetFavorites = false →
        ∀ l, st.favorites = Cell.val l →
          (isInFavorites env st postId = true ↔ ∃ p ∈ l, p.id = postId))
    ∧ (st.favorites = Cell.absent ∨ st.favorites = Cell.corrupt →
        isInFavorites env st postId = false) := by
  refine ⟨?_, ?_, ?_⟩
  · intro hgf
    unfold isInFavorites getFavorites
    simp [hgf]
  · intro hgf l hl
    unfold isInFavorites
    rw [getFavorites_eq_cellList env st hgf, hl]
    show (l.any fun item => item.id == postId) = true ↔ _
    rw [List.any_eq_true]
    constructor
    · rintro ⟨x, hx, hpx⟩
      exact ⟨x, hx, by simpa using hpx⟩
    · rintro ⟨x, hx, hpx⟩
      exact ⟨x, hx, by simpa using hpx⟩
  · intro h
    rcases h with h | h <;> (unfold isInFavorites; cases hgf : env.failGetFavorites <;>
      simp [getFavorites, h, hgf])

/-- C10 witness: with the sample post stored as the only favorite,
isInFavorites finds its id through the fault-free environment. -/
theorem isInFavorites_iff_member_witness :
    isInFavorites envOk ⟨Cell.absent, Cell.val [post1], Cell.absent, none⟩ 1 = true :=
  ((isInFavorites_iff_member envOk
        ⟨Cell.absent, Cell.val [post1], Cell.absent, none⟩ 1).2.1 rfl [post1]
      rfl).mpr ⟨post1, List.mem_singleton.mpr rfl, rfl⟩

end AcademicApp

